import Mathlib

/-!
Verification of the starlinkpnt relay scripts.

Shallow embedding of the three Python sources:
  `starlink_to_udp.py` (UDP-bridge variant),
  `starlink_nmea_fallback.py` (fallback-bridge variant),
  `starlink_mavlink_gps.py` (MAVLink-injection variant).

Python floats are modelled as `ℚ`; Python `int()` truncation, float `%`
and string formatting are given explicit executable counterparts below.
-/

/-! ## Python arithmetic primitives -/

/-- Floor of a rational, computable (`⌊q⌋ = q.num / q.den` by `Rat.floor_def`). -/
def pyFloor (q : ℚ) : ℤ := q.num / q.den

theorem pyFloor_eq_floor (q : ℚ) : pyFloor q = ⌊q⌋ := Rat.floor_def.symm

/-- Python `int()` applied to a float: truncation toward zero. -/
def pyInt (q : ℚ) : ℤ := if 0 ≤ q then pyFloor q else -pyFloor (-q)

theorem pyInt_of_nonneg {q : ℚ} (h : 0 ≤ q) : pyInt q = ⌊q⌋ := by
  rw [pyInt, if_pos h, pyFloor_eq_floor]

/-- Python float `%`: floored-division remainder (result has the divisor's sign). -/
def pyMod (a m : ℚ) : ℚ := a - m * (pyFloor (a / m) : ℚ)

theorem pyMod_nonneg {a m : ℚ} (hm : 0 < m) : 0 ≤ pyMod a m := by
  rw [pyMod, pyFloor_eq_floor, sub_nonneg]
  calc m * (⌊a / m⌋ : ℚ) ≤ m * (a / m) :=
        mul_le_mul_of_nonneg_left (Int.floor_le _) hm.le
    _ = a := by field_simp

theorem pyMod_lt {a m : ℚ} (hm : 0 < m) : pyMod a m < m := by
  rw [pyMod, pyFloor_eq_floor, sub_lt_iff_lt_add]
  have h1 : a / m < (⌊a / m⌋ : ℚ) + 1 := Int.lt_floor_add_one _
  calc a = m * (a / m) := by field_simp
    _ < m * ((⌊a / m⌋ : ℚ) + 1) := by
        exact mul_lt_mul_of_pos_left h1 hm
    _ = m + m * (⌊a / m⌋ : ℚ) := by ring

/-- Python truthiness of an optional float (`None` and `0.0` are falsy). -/
def truthyQ : Option ℚ → Bool
  | none => false
  | some x => decide (x ≠ 0)

/-- Python truthiness of an optional int (`None` and `0` are falsy). -/
def truthyZ : Option ℤ → Bool
  | none => false
  | some x => decide (x ≠ 0)

/-- Python truthiness of an optional bool (`None` is falsy). -/
def truthyB : Option Bool → Bool
  | none => false
  | some b => b

/-! ## Decimal / hex rendering (Python f-string formatting) -/

/-- One decimal or hexadecimal digit, uppercase (source format specs `d`, `02X`). -/
def hexDigitChar (n : ℕ) : Char :=
  if n = 0 then '0' else if n = 1 then '1' else if n = 2 then '2'
  else if n = 3 then '3' else if n = 4 then '4' else if n = 5 then '5'
  else if n = 6 then '6' else if n = 7 then '7' else if n = 8 then '8'
  else if n = 9 then '9' else if n = 10 then 'A' else if n = 11 then 'B'
  else if n = 12 then 'C' else if n = 13 then 'D' else if n = 14 then 'E'
  else if n = 15 then 'F' else '0'

/-- Decimal digit list of a natural number, most significant first (fuel recursion). -/
def natDigitsCore : ℕ → ℕ → List Char → List Char
  | 0, _, acc => acc
  | fuel + 1, n, acc =>
    if n < 10 then hexDigitChar n :: acc
    else natDigitsCore fuel (n / 10) (hexDigitChar (n % 10) :: acc)

def natDigitsList (n : ℕ) : List Char := natDigitsCore (n + 1) n []

/-- Python `str` of a nonnegative int. -/
def natRepr (n : ℕ) : String := String.mk (natDigitsList n)

/-- Python `str` of an int (possible leading minus sign). -/
def intRepr (i : ℤ) : String := if i < 0 then "-" ++ natRepr i.natAbs else natRepr i.natAbs

/-- Left zero-padding to a given width (Python `0`-fill). -/
def padZeros (w : ℕ) (l : List Char) : List Char := List.replicate (w - l.length) '0' ++ l

/-- Python `f"{n:02d}"` (also used for `strftime` two-digit fields). -/
def pad2 (n : ℕ) : String := String.mk (padZeros 2 (natDigitsList n))

/-- Python `f"{n:03d}"`. -/
def pad3 (n : ℕ) : String := String.mk (padZeros 3 (natDigitsList n))

/-- Python `f"{q:.precf}"`: fixed-point rendering with `prec` decimals.
The magnitude is rounded at `prec` decimals; the binary-float rounding of
CPython is modelled as exact decimal rounding of the rational value. -/
def fmtFixed (prec : ℕ) (q : ℚ) : String :=
  let scaled : ℕ := (pyFloor (|q| * (10 : ℚ) ^ prec + mkRat 1 2)).toNat
  let ds := padZeros (prec + 1) (natDigitsList scaled)
  let core := String.mk (ds.take (ds.length - prec) ++ '.' :: ds.drop (ds.length - prec))
  if q < 0 then "-" ++ core else core

/-- Python `f"{q:0w.precf}"`: as `fmtFixed` but zero-padded to total width `w`,
zeros inserted after the sign. -/
def fmtFixedW (w prec : ℕ) (q : ℚ) : String :=
  if q < 0 then "-" ++ String.mk (padZeros (w - 1) (fmtFixed prec |q|).data)
  else String.mk (padZeros w (fmtFixed prec q).data)

/-! ## Data model -/

/-- Result of `get_starlink_pnt()` (all three sources): a dict of optional
fields; `None` marks a field the two grpcurl queries could not supply.
`accuracy` exists only in the UDP/fallback variants' dict. -/
structure Pnt where
  lat : Option ℚ
  lon : Option ℚ
  alt : Option ℚ
  accuracy : Option ℚ
  gps_sats : Option ℤ
  gps_valid : Option Bool

/-- A UTC instant as consumed by the sentence formatters: the fields of the
`datetime` value `now` that `strftime("%H%M%S.%f")[:-4]` and
`strftime("%d%m%y")` and the ZDA f-string read. `centi` is the microsecond
field truncated to centiseconds by the `[:-4]` slice. -/
structure UtcTime where
  hour : ℕ
  minute : ℕ
  second : ℕ
  centi : ℕ
  day : ℕ
  month : ℕ
  year : ℕ

/-- Python `now.strftime("%H%M%S.%f")[:-4]`. -/
def time_str (t : UtcTime) : String :=
  pad2 t.hour ++ pad2 t.minute ++ pad2 t.second ++ "." ++ pad2 t.centi

/-- Python `now.strftime("%d%m%y")`. -/
def date_str (t : UtcTime) : String :=
  pad2 t.day ++ pad2 t.month ++ pad2 (t.year % 100)

/-! ## NMEA coordinate rendering (both NMEA variants; `starlink_to_udp.py`
lines 167-179 and the identical closures in `starlink_nmea_fallback.py`
lines 190-199) -/

/-- `nmea_lat(val)`: decimal latitude to `DDMM.MMMM,H`. -/
def nmea_lat (val : ℚ) : String :=
  let deg : ℕ := (pyFloor |val|).toNat
  let minf : ℚ := (|val| - (deg : ℚ)) * 60
  let hemi : String := if 0 ≤ val then "N" else "S"
  pad2 deg ++ fmtFixedW 7 4 minf ++ "," ++ hemi

/-- `nmea_lon(val)`: decimal longitude to `DDDMM.MMMM,H`. -/
def nmea_lon (val : ℚ) : String :=
  let deg : ℕ := (pyFloor |val|).toNat
  let minf : ℚ := (|val| - (deg : ℚ)) * 60
  let hemi : String := if 0 ≤ val then "E" else "W"
  pad3 deg ++ fmtFixedW 7 4 minf ++ "," ++ hemi

/-! ## NMEA checksum (`starlink_to_udp.py` lines 181-186; inlined loops in
`starlink_nmea_fallback.py`) -/

/-- Fold of byte-wise exclusive-or, starting from 0. -/
def xorFoldL (l : List Char) : ℕ := l.foldl (fun a c => a ^^^ c.toNat) 0

/-- `calculate_checksum(sentence)`: xor of all characters after the leading `$`. -/
def calculate_checksum (sentence : String) : ℕ := xorFoldL (sentence.data.drop 1)

/-- Python `f"{checksum:02X}"` for values below 256. -/
def hex2 (n : ℕ) : String := String.mk [hexDigitChar (n / 16 % 16), hexDigitChar (n % 16)]

/-- The emission pattern `f"{body}*{checksum:02X}"` shared by every sentence
in both NMEA variants. -/
def withChecksum (body : String) : String := body ++ "*" ++ hex2 (calculate_checksum body)

/-! ## Character-set facts used by the checksum proof -/

/-- A character that may appear in a sentence body: ASCII and not `*`. -/
def goodCharB (c : Char) : Bool := decide (c.toNat < 128) && !(c == '*')

/-- All characters of a string are body-safe. -/
def goodS (s : String) : Bool := s.data.all goodCharB

theorem goodS_append (a b : String) : goodS (a ++ b) = (goodS a && goodS b) := by
  simp [goodS, String.data_append]

theorem goodS_mk (l : List Char) : goodS (String.mk l) = l.all goodCharB := rfl

theorem hexDigitChar_good (n : ℕ) : goodCharB (hexDigitChar n) = true := by
  by_cases h : n < 16
  · interval_cases n <;> decide
  · have h0 : hexDigitChar n = '0' := by
      unfold hexDigitChar
      repeat rw [if_neg (by omega)]
    rw [h0]
    decide

theorem natDigitsCore_all (fuel n : ℕ) (acc : List Char) (h : acc.all goodCharB = true) :
    (natDigitsCore fuel n acc).all goodCharB = true := by
  induction fuel generalizing n acc with
  | zero => exact h
  | succ fuel ih =>
    rw [natDigitsCore]
    split
    · simp [h, hexDigitChar_good]
    · exact ih _ _ (by simp [h, hexDigitChar_good])

theorem natDigitsList_all (n : ℕ) : (natDigitsList n).all goodCharB = true :=
  natDigitsCore_all _ _ _ rfl

theorem padZeros_all (w : ℕ) (l : List Char) (h : l.all goodCharB = true) :
    (padZeros w l).all goodCharB = true := by
  rw [padZeros, List.all_append, h, Bool.and_true, List.all_eq_true]
  intro c hc
  rw [List.eq_of_mem_replicate hc]
  decide

theorem goodS_pad2 (n : ℕ) : goodS (pad2 n) = true :=
  padZeros_all _ _ (natDigitsList_all n)

theorem goodS_pad3 (n : ℕ) : goodS (pad3 n) = true :=
  padZeros_all _ _ (natDigitsList_all n)

theorem goodS_natRepr (n : ℕ) : goodS (natRepr n) = true := natDigitsList_all n

theorem goodS_intRepr (i : ℤ) : goodS (intRepr i) = true := by
  rw [intRepr]
  split
  · rw [goodS_append, goodS_natRepr]; decide
  · exact goodS_natRepr _

theorem all_take (l : List Char) (n : ℕ) (h : l.all goodCharB = true) :
    (l.take n).all goodCharB = true := by
  rw [List.all_eq_true] at h ⊢
  exact fun c hc => h c (List.take_subset n l hc)

theorem all_drop (l : List Char) (n : ℕ) (h : l.all goodCharB = true) :
    (l.drop n).all goodCharB = true := by
  rw [List.all_eq_true] at h ⊢
  exact fun c hc => h c (List.drop_subset n l hc)

theorem goodS_fmtFixed (prec : ℕ) (q : ℚ) : goodS (fmtFixed prec q) = true := by
  have hds := padZeros_all (prec + 1)
    (natDigitsList (pyFloor (|q| * (10 : ℚ) ^ prec + mkRat 1 2)).toNat) (natDigitsList_all _)
  have ht := fun n => all_take _ n hds
  have hd := fun n => all_drop _ n hds
  simp only [fmtFixed]
  split
  all_goals simp only [goodS_append, goodS_mk, List.all_append, List.all_cons, ht, hd]
  all_goals decide

theorem goodS_fmtFixedW (w prec : ℕ) (q : ℚ) : goodS (fmtFixedW w prec q) = true := by
  simp only [fmtFixedW]
  split
  · simp only [goodS_append, goodS_mk, padZeros_all _ _ (goodS_fmtFixed prec |q|)]
    decide
  · simp only [goodS_mk]
    exact padZeros_all _ _ (goodS_fmtFixed prec q)

theorem goodS_time_str (t : UtcTime) : goodS (time_str t) = true := by
  rw [time_str, goodS_append, goodS_append, goodS_append, goodS_append,
    goodS_pad2, goodS_pad2, goodS_pad2, goodS_pad2]
  decide

theorem goodS_date_str (t : UtcTime) : goodS (date_str t) = true := by
  rw [date_str, goodS_append, goodS_append, goodS_pad2, goodS_pad2, goodS_pad2]
  decide

theorem goodS_nmea_lat (val : ℚ) : goodS (nmea_lat val) = true := by
  rw [nmea_lat]
  split
  all_goals rw [goodS_append, goodS_append, goodS_append, goodS_pad2, goodS_fmtFixedW]
  all_goals decide

theorem goodS_nmea_lon (val : ℚ) : goodS (nmea_lon val) = true := by
  rw [nmea_lon]
  split
  all_goals rw [goodS_append, goodS_append, goodS_append, goodS_pad3, goodS_fmtFixedW]
  all_goals decide

/-! ## The checksum-validity predicate (from the spec's checksum sentence) -/

/-- Value of an uppercase hexadecimal digit character. -/
def hexCharVal (c : Char) : ℕ := if c.isDigit then c.toNat - 48 else c.toNat - 55

def isUpperHexDigit (c : Char) : Bool := c.isDigit || (decide ('A' ≤ c) && decide (c ≤ 'F'))

/-- The claim's property of one emitted sentence: it starts with `$`, a `*`
follows, exactly two uppercase hex digits end the sentence, and the xor of
all characters strictly between the `$` and the `*` equals their value. -/
def checksumOKb (s : String) : Bool :=
  let rest := s.data.drop 1
  let body := rest.takeWhile (fun x => !(x == '*'))
  let tail := rest.dropWhile (fun x => !(x == '*'))
  (s.data.take 1 == ['$']) && (tail.length == 3) && (tail.getD 0 ' ' == '*') &&
  isUpperHexDigit (tail.getD 1 ' ') && isUpperHexDigit (tail.getD 2 ' ') &&
  (xorFoldL body == 16 * hexCharVal (tail.getD 1 ' ') + hexCharVal (tail.getD 2 ' '))

theorem takeWhile_append_all (p : Char → Bool) (l t : List Char) (h : ∀ c ∈ l, p c = true) :
    (l ++ t).takeWhile p = l ++ t.takeWhile p := by
  induction l with
  | nil => rfl
  | cons c cs ih =>
    have hc := h c (List.mem_cons_self c cs)
    simp only [List.cons_append, List.takeWhile_cons, hc, if_true]
    rw [ih (fun x hx => h x (List.mem_cons_of_mem c hx))]

theorem dropWhile_append_all (p : Char → Bool) (l t : List Char) (h : ∀ c ∈ l, p c = true) :
    (l ++ t).dropWhile p = t.dropWhile p := by
  induction l with
  | nil => rfl
  | cons c cs ih =>
    have hc := h c (List.mem_cons_self c cs)
    simp only [List.cons_append, List.dropWhile_cons, hc, if_true]
    exact ih (fun x hx => h x (List.mem_cons_of_mem c hx))

theorem xorFoldL_aux_lt (l : List Char) (acc : ℕ) (hacc : acc < 128)
    (h : ∀ c ∈ l, c.toNat < 128) :
    l.foldl (fun a c => a ^^^ c.toNat) acc < 128 := by
  induction l generalizing acc with
  | nil => exact hacc
  | cons c cs ih =>
    rw [List.foldl_cons]
    refine ih _ ?_ (fun x hx => h x (List.mem_cons_of_mem c hx))
    have hc : c.toNat < 128 := h c (List.mem_cons_self c cs)
    exact Nat.xor_lt_two_pow (n := 7) hacc hc

theorem xorFoldL_lt (l : List Char) (h : ∀ c ∈ l, c.toNat < 128) : xorFoldL l < 128 :=
  xorFoldL_aux_lt l 0 (by decide) h

theorem hexDigitChar_spec : ∀ k, k < 16 →
    isUpperHexDigit (hexDigitChar k) = true ∧ hexCharVal (hexDigitChar k) = k := by
  decide

/-- Core lemma: appending `*` plus the two hex digits of the xor of a
`$`-headed, `*`-free ASCII body yields a sentence the checksum predicate
accepts. -/
theorem checksumOKb_withChecksum (body : String) (h0 : body.data.take 1 = ['$'])
    (hg : goodS body = true) : checksumOKb (withChecksum body) = true := by
  obtain ⟨rest, hrest⟩ : ∃ rest, body.data = '$' :: rest := by
    cases hb : body.data with
    | nil => rw [hb] at h0; simp at h0
    | cons c cs =>
      rw [hb] at h0
      simp only [List.take_succ_cons, List.take_zero] at h0
      exact ⟨cs, by rw [List.cons.injEq] at h0; rw [h0.1]⟩
  have hgood : ∀ c ∈ rest, goodCharB c = true := by
    rw [goodS, hrest, List.all_cons, Bool.and_eq_true, List.all_eq_true] at hg
    exact hg.2
  have hne : ∀ c ∈ rest, (!(c == '*')) = true := by
    intro c hc
    have := hgood c hc
    rw [goodCharB, Bool.and_eq_true] at this
    exact this.2
  have hlt : ∀ c ∈ rest, c.toNat < 128 := by
    intro c hc
    have := hgood c hc
    rw [goodCharB, Bool.and_eq_true, decide_eq_true_eq] at this
    exact this.1
  have hcs : calculate_checksum body = xorFoldL rest := by
    rw [calculate_checksum, hrest, List.drop_one, List.tail_cons]
  have hcslt : calculate_checksum body < 128 := hcs ▸ xorFoldL_lt rest hlt
  have hdata : (withChecksum body).data =
      '$' :: (rest ++ '*' :: (hex2 (calculate_checksum body)).data) := by
    rw [withChecksum, String.data_append, String.data_append, hrest,
      show ("*" : String).data = ['*'] from rfl]
    simp [List.append_assoc]
  have hd1 : isUpperHexDigit (hexDigitChar (calculate_checksum body / 16 % 16)) = true ∧
      hexCharVal (hexDigitChar (calculate_checksum body / 16 % 16)) =
        calculate_checksum body / 16 % 16 :=
    hexDigitChar_spec _ (Nat.mod_lt _ (by decide))
  have hd2 : isUpperHexDigit (hexDigitChar (calculate_checksum body % 16)) = true ∧
      hexCharVal (hexDigitChar (calculate_checksum body % 16)) =
        calculate_checksum body % 16 :=
    hexDigitChar_spec _ (Nat.mod_lt _ (by decide))
  have hdiv : calculate_checksum body / 16 % 16 = calculate_checksum body / 16 :=
    Nat.mod_eq_of_lt (Nat.div_lt_of_lt_mul (by omega))
  rw [checksumOKb, hdata]
  simp only [List.take_succ_cons, List.take_zero, List.drop_succ_cons, List.drop_zero]
  rw [takeWhile_append_all _ _ _ hne, dropWhile_append_all _ _ _ hne]
  simp only [List.dropWhile_cons, List.takeWhile_cons]
  have hstar : (!('*' == '*')) = false := by decide
  rw [hstar]
  simp only [Bool.false_eq_true, if_false, hex2]
  simp only [List.getD_cons_zero, List.getD_cons_succ, List.length_cons, List.length_nil,
    List.append_nil, List.takeWhile_nil]
  rw [hd1.1, hd1.2, hd2.1, hd2.2, hdiv, ← hcs]
  have h16 : 16 * (calculate_checksum body / 16) + calculate_checksum body % 16 =
      calculate_checksum body := by
    omega
  rw [h16]
  simp

/-! ## Validity-flag mapping (C5) -/

/-- Line 195 of `starlink_to_udp.py`: absent `gps_valid` defaults to `False`. -/
def udpGpsValid (pnt : Pnt) : Bool := pnt.gps_valid.getD false

/-- Line 216 of `starlink_to_udp.py`: `fix_quality = 1 if gps_valid else 0`. -/
def udpFixQuality (pnt : Pnt) : ℕ := if udpGpsValid pnt then 1 else 0

/-- Lines 223 and 231 of `starlink_to_udp.py`: `'A' if gps_valid else 'V'`. -/
def udpStatus (pnt : Pnt) : String := if udpGpsValid pnt then "A" else "V"

/-- Line 188 of `starlink_nmea_fallback.py`: absent `gps_valid` defaults to `True`. -/
def fallbackGpsValid (pnt : Pnt) : Bool := pnt.gps_valid.getD true

/-- Line 202 of `starlink_nmea_fallback.py`: `fix_quality = 1 if gps_valid else 0`. -/
def fallbackFixQuality (pnt : Pnt) : ℕ := if fallbackGpsValid pnt then 1 else 0

/-- Lines 222 and 244 of `starlink_nmea_fallback.py`: `'A' if gps_valid else 'V'`. -/
def fallbackStatus (pnt : Pnt) : String := if fallbackGpsValid pnt then "A" else "V"

theorem goodS_udpStatus (pnt : Pnt) : goodS (udpStatus pnt) = true := by
  rw [udpStatus]; split <;> decide

theorem goodS_fallbackStatus (pnt : Pnt) : goodS (fallbackStatus pnt) = true := by
  rw [fallbackStatus]; split <;> decide

/-! ## The two NMEA batch generators -/

/-- `generate_nmea_sentences()` of `starlink_to_udp.py` (lines 188-238).
The datetime value sampled once at lines 205-209 is the parameter `now`;
absent position fields default to `0.0`, absent satellite count to `0`,
and the whole batch is dropped when both coordinates equal `0.0`. -/
def generate_nmea_sentences (pnt : Pnt) (now : UtcTime) : List String :=
  let lat := pnt.lat.getD 0
  let lon := pnt.lon.getD 0
  let alt := pnt.alt.getD 0
  let gps_sats := pnt.gps_sats.getD 0
  let accuracy : ℚ := 1
  if lat = 0 ∧ lon = 0 then []
  else
    let ts := time_str now
    let ds := date_str now
    let lat_str := nmea_lat lat
    let lon_str := nmea_lon lon
    let gga := "$GPGGA," ++ ts ++ "," ++ lat_str ++ "," ++ lon_str ++ "," ++
      natRepr (udpFixQuality pnt) ++ "," ++ intRepr gps_sats ++ "," ++ fmtFixed 1 accuracy ++
      "," ++ fmtFixed 1 alt ++ ",M,0.0,M,,"
    let rmc := "$GPRMC," ++ ts ++ "," ++ udpStatus pnt ++ "," ++ lat_str ++ "," ++ lon_str ++
      ",0.0,0.0," ++ ds ++ ",,"
    let vtg := "$GPVTG,0.0,T,,M,0.0,N,0.0,K,"
    let gll := "$GPGLL," ++ lat_str ++ "," ++ lon_str ++ "," ++ ts ++ "," ++ udpStatus pnt ++ ","
    let gsa := "$GPGSA,A,3,01,02,03,04,05,06,07,08,09,10,11,12," ++ fmtFixed 1 accuracy ++
      "," ++ fmtFixed 1 accuracy ++ "," ++ fmtFixed 1 accuracy
    [withChecksum gga, withChecksum rmc, withChecksum vtg, withChecksum gll, withChecksum gsa]

/-- `get_starlink_sentences()` of `starlink_nmea_fallback.py` (lines 181-271).
The corrected clock is re-sampled before every sentence (lines 204-209,
215-220, ...); `nowAt k` is the k-th sample. Absent fields default to
`47.0 / -122.0 / 10.0 / 8 / True / 1.0` (lines 184-189). -/
def get_starlink_sentences (pnt : Pnt) (nowAt : ℕ → UtcTime) : List String :=
  let lat := pnt.lat.getD 47
  let lon := pnt.lon.getD (-122)
  let alt := pnt.alt.getD 10
  let gps_sats := pnt.gps_sats.getD 8
  let accuracy := pnt.accuracy.getD 1
  let nmea_lat_str := nmea_lat lat
  let nmea_lon_str := nmea_lon lon
  let gga := "$GPGGA," ++ time_str (nowAt 0) ++ "," ++ nmea_lat_str ++ "," ++ nmea_lon_str ++
    "," ++ natRepr (fallbackFixQuality pnt) ++ "," ++ intRepr gps_sats ++ "," ++
    fmtFixed 1 accuracy ++ "," ++ fmtFixed 1 alt ++ ",M,0.0,M,,"
  let rmc := "$GPRMC," ++ time_str (nowAt 1) ++ "," ++ fallbackStatus pnt ++ "," ++
    nmea_lat_str ++ "," ++ nmea_lon_str ++ ",0.0,0.0," ++ date_str (nowAt 1) ++ ",,"
  let vtg := "$GPVTG,0.0,T,,M,0.0,N,0.0,K,"
  let gll := "$GPGLL," ++ nmea_lat_str ++ "," ++ nmea_lon_str ++ "," ++ time_str (nowAt 3) ++
    "," ++ fallbackStatus pnt ++ ","
  let gsa := "$GPGSA,A,3,01,02,03,04,05,06,07,08,09,10,11,12," ++ fmtFixed 1 accuracy ++
    "," ++ fmtFixed 1 accuracy ++ "," ++ fmtFixed 1 accuracy
  let zda := "$GPZDA," ++ time_str (nowAt 5) ++ "," ++ pad2 (nowAt 5).day ++ "," ++
    pad2 (nowAt 5).month ++ "," ++ natRepr (nowAt 5).year ++ ",,,"
  [withChecksum gga, withChecksum rmc, withChecksum vtg, withChecksum gll, withChecksum gsa,
    withChecksum zda]

/-! ## C2: checksum correctness of every emitted sentence -/

theorem take_one_append (l t : List Char) (h : l.take 1 = ['$']) : (l ++ t).take 1 = ['$'] := by
  cases l with
  | nil => simp at h
  | cons c cs =>
    simp only [List.cons_append, List.take_succ_cons, List.take_zero] at h ⊢
    exact h

/-- C2: for every sentence string emitted by either NMEA encoder (UDP-bridge
variant `generate_nmea_sentences` or fallback-bridge variant
`get_starlink_sentences`), the exclusive-or of all character bytes between
the leading `$` and the `*` equals the two uppercase hexadecimal digits
appended after the `*`. -/
theorem C2_checksum_correct (pnt : Pnt) (now : UtcTime) (nowAt : ℕ → UtcTime) (s : String)
    (hs : s ∈ generate_nmea_sentences pnt now ∨ s ∈ get_starlink_sentences pnt nowAt) :
    checksumOKb s = true := by
  rcases hs with h | h
  · simp only [generate_nmea_sentences] at h
    split at h
    · simp at h
    · simp only [List.mem_cons, List.not_mem_nil, or_false] at h
      rcases h with rfl | rfl | rfl | rfl | rfl
      all_goals apply checksumOKb_withChecksum
      all_goals first
        | decide
        | (simp only [goodS_append, goodS_time_str, goodS_date_str, goodS_nmea_lat,
            goodS_nmea_lon, goodS_natRepr, goodS_intRepr, goodS_fmtFixed, goodS_pad2,
            goodS_pad3, goodS_udpStatus, goodS_fallbackStatus]
           decide)
        | (simp only [String.data_append]
           repeat apply take_one_append
           decide)
  · simp only [get_starlink_sentences] at h
    simp only [List.mem_cons, List.not_mem_nil, or_false] at h
    rcases h with rfl | rfl | rfl | rfl | rfl | rfl
    all_goals apply checksumOKb_withChecksum
    all_goals first
      | decide
      | (simp only [goodS_append, goodS_time_str, goodS_date_str, goodS_nmea_lat,
          goodS_nmea_lon, goodS_natRepr, goodS_intRepr, goodS_fmtFixed, goodS_pad2,
          goodS_pad3, goodS_udpStatus, goodS_fallbackStatus]
         decide)
      | (simp only [String.data_append]
         repeat apply take_one_append
         decide)

/-! ## Failover controller (`starlink_nmea_fallback.py`, `main()` inner loop,
lines 323-353) -/

/-- `LOCK_LOSS_THRESHOLD = 120` (line 16), in seconds. -/
def LOCK_LOSS_THRESHOLD : ℚ := 120

/-- Line 326: `line.startswith('$GP') or line.startswith('$GN')`.
Python `str.startswith` is data-level character-list prefix testing. -/
def isGpsLine (line : String) : Bool :=
  "$GP".data.isPrefixOf line.data || "$GN".data.isPrefixOf line.data

/-- The module-level mutable state read and written by the inner loop:
`last_gps_data_time` (line 27, initially `0`) and `fallback_active`
(line 28, initially `False`, i.e. PRIMARY). -/
structure FoState where
  last_gps_data_time : ℚ
  fallback_active : Bool
deriving DecidableEq

/-- One iteration of the inner `while True` loop (lines 323-341) restricted
to its state effect, given the line read and the value `now = time.time()`:
a recognized GPS line refreshes the silence timer, is relayed, and clears
the fallback flag; afterwards the silence timer is compared against
`LOCK_LOSS_THRESHOLD` and the fallback flag raised on expiry. The returned
`Bool` is whether the line was relayed to the pipe (lines 331-337). -/
def foStep (s : FoState) (line : String) (now : ℚ) : FoState × Bool :=
  let s1 := if isGpsLine line then ⟨now, false⟩ else s
  let s2 := if s1.fallback_active = false ∧ LOCK_LOSS_THRESHOLD < now - s1.last_gps_data_time
    then ⟨s1.last_gps_data_time, true⟩ else s1
  (s2, isGpsLine line)

/-- A run of the inner loop over a list of `(line, now)` inputs, counting
the number of PRIMARY to FALLBACK transitions (risings of
`fallback_active`). -/
def foRun (s : FoState) (inputs : List (String × ℚ)) : FoState × ℕ :=
  match inputs with
  | [] => (s, 0)
  | (line, now) :: rest =>
    let s' := (foStep s line now).1
    let r := foRun s' rest
    (r.1, (if s.fallback_active = false ∧ s'.fallback_active = true then 1 else 0) + r.2)

theorem foRun_fallback_absorb (inputs : List (String × ℚ)) (l : ℚ)
    (h : ∀ p ∈ inputs, isGpsLine p.1 = false) : foRun ⟨l, true⟩ inputs = (⟨l, true⟩, 0) := by
  induction inputs with
  | nil => rfl
  | cons p rest ih =>
    obtain ⟨line, now⟩ := p
    have hl : isGpsLine line = false := h (line, now) (List.mem_cons_self _ _)
    have hstep : (foStep ⟨l, true⟩ line now).1 = ⟨l, true⟩ := by
      rw [foStep]; simp [hl]
    simp only [foRun, hstep]
    rw [ih (fun q hq => h q (List.mem_cons_of_mem _ hq))]
    simp

theorem not_thresh_lt_zero : ¬ (LOCK_LOSS_THRESHOLD < (0 : ℚ)) := by
  rw [LOCK_LOSS_THRESHOLD]; norm_num

/-- Counting lemma behind C1: in an all-unrecognized run started in PRIMARY
the number of PRIMARY to FALLBACK transitions is 1 when the threshold is
ever exceeded and 0 otherwise. -/
theorem foRun_silence_count (l0 : ℚ) (inputs : List (String × ℚ))
    (hsil : ∀ p ∈ inputs, isGpsLine p.1 = false) :
    (foRun ⟨l0, false⟩ inputs).2 =
      (if ∃ p ∈ inputs, LOCK_LOSS_THRESHOLD < p.2 - l0 then 1 else 0) := by
  induction inputs with
  | nil => simp [foRun]
  | cons p rest ih =>
      obtain ⟨line, now⟩ := p
      have hl : isGpsLine line = false := hsil (line, now) (List.mem_cons_self _ _)
      have hrest : ∀ q ∈ rest, isGpsLine q.1 = false :=
        fun q hq => hsil q (List.mem_cons_of_mem _ hq)
      by_cases hc : LOCK_LOSS_THRESHOLD < now - l0
      · have hstep : (foStep ⟨l0, false⟩ line now).1 = ⟨l0, true⟩ := by
          rw [foStep]; simp [hl, hc]
        have hex : ∃ p ∈ (line, now) :: rest, LOCK_LOSS_THRESHOLD < p.2 - l0 :=
          ⟨(line, now), List.mem_cons_self _ _, hc⟩
        simp only [foRun, hstep, foRun_fallback_absorb rest l0 hrest]
        rw [if_pos hex]
        simp
      · have hstep : (foStep ⟨l0, false⟩ line now).1 = ⟨l0, false⟩ := by
          rw [foStep]; simp [hl, hc]
        have hiff : (∃ p ∈ (line, now) :: rest, LOCK_LOSS_THRESHOLD < p.2 - l0) ↔
            (∃ p ∈ rest, LOCK_LOSS_THRESHOLD < p.2 - l0) := by
          constructor
          · rintro ⟨q, hq, hqlt⟩
            rcases List.mem_cons.mp hq with rfl | hq2
            · exact absurd hqlt hc
            · exact ⟨q, hq2, hqlt⟩
          · rintro ⟨q, hq, hqlt⟩
            exact ⟨q, List.mem_cons_of_mem _ hq, hqlt⟩
        simp only [foRun, hstep, ih hrest]
        rw [if_congr hiff rfl rfl]
        simp

/-- C1: in a silence episode (a run of loop iterations none of whose lines is
recognized as a GPS sentence) started in PRIMARY, the controller transitions
PRIMARY to FALLBACK exactly once if some iteration's clock exceeds the last
GPS time by more than `LOCK_LOSS_THRESHOLD`, and never again while FALLBACK
is active (transition count is 1, not more); with no expiry it never
transitions. Moreover any recognized GPS line puts the controller in
PRIMARY. -/
theorem C1_failover_once (l0 : ℚ) (inputs : List (String × ℚ))
    (hsil : ∀ p ∈ inputs, isGpsLine p.1 = false) :
    (foRun ⟨l0, false⟩ inputs).2 =
      (if ∃ p ∈ inputs, LOCK_LOSS_THRESHOLD < p.2 - l0 then 1 else 0) ∧
    (∀ (s : FoState) (line : String) (now : ℚ), isGpsLine line = true →
      (foStep s line now).1.fallback_active = false) := by
  refine ⟨foRun_silence_count l0 inputs hsil, ?_⟩
  intro s line now h
  rw [foStep]
  simp [h, not_thresh_lt_zero]

theorem C1_failover_once_witness :
    (foRun ⟨0, false⟩ [(("x" : String), (121 : ℚ))]).2 =
      (if ∃ p ∈ [(("x" : String), (121 : ℚ))], LOCK_LOSS_THRESHOLD < p.2 - 0 then 1 else 0) ∧
    (∀ (s : FoState) (line : String) (now : ℚ), isGpsLine line = true →
      (foStep s line now).1.fallback_active = false) :=
  C1_failover_once 0 [("x", 121)] (by decide)

/-- C8: `last_gps_data_time` starts at the Unix epoch value `0`
(line 27), so on the very first loop iteration with no recognized line and
any wall-clock value exceeding `LOCK_LOSS_THRESHOLD`, the controller
switches to FALLBACK immediately rather than waiting out an actual silence
interval. -/
theorem C8_epoch_init_immediate_fallback (line : String) (now : ℚ)
    (h1 : isGpsLine line = false) (h2 : LOCK_LOSS_THRESHOLD < now) :
    (foStep ⟨0, false⟩ line now).1.fallback_active = true := by
  rw [foStep]
  simp [h1, h2]

theorem C8_epoch_init_immediate_fallback_witness :
    (foStep ⟨0, false⟩ "hello" 121).1.fallback_active = true :=
  C8_epoch_init_immediate_fallback "hello" 121 (by decide)
    (by rw [LOCK_LOSS_THRESHOLD]; norm_num)

/-- C10: a line read from the local stream is relayed to the pipe (and, when
recognized, refreshes the silence timer and restores PRIMARY) if and only if
it begins with `$GP` or `$GN`; an unrecognized line leaves the timer
untouched. -/
theorem C10_line_recognition (s : FoState) (line : String) (now : ℚ) :
    ((foStep s line now).2 = true ↔
      ("$GP".data.isPrefixOf line.data = true ∨ "$GN".data.isPrefixOf line.data = true)) ∧
    (isGpsLine line = true →
      (foStep s line now).1.last_gps_data_time = now ∧
      (foStep s line now).1.fallback_active = false) ∧
    (isGpsLine line = false →
      (foStep s line now).1.last_gps_data_time = s.last_gps_data_time) := by
  refine ⟨?_, ?_, ?_⟩
  · simp [foStep, isGpsLine]
  · intro h
    rw [foStep]
    simp [h, not_thresh_lt_zero]
  · intro h
    rw [foStep]
    simp only [h, Bool.false_eq_true, if_false]
    split
    · rfl
    · rfl

theorem C10_line_recognition_witness :
    (((foStep ⟨0, false⟩ "$GPGGA,x" 5).2 = true ↔
      ("$GP".data.isPrefixOf "$GPGGA,x".data = true ∨
        "$GN".data.isPrefixOf "$GPGGA,x".data = true)) ∧
    (isGpsLine "$GPGGA,x" = true →
      (foStep ⟨0, false⟩ "$GPGGA,x" 5).1.last_gps_data_time = 5 ∧
      (foStep ⟨0, false⟩ "$GPGGA,x" 5).1.fallback_active = false) ∧
    (isGpsLine "$GPGGA,x" = false →
      (foStep ⟨0, false⟩ "$GPGGA,x" 5).1.last_gps_data_time = (0 : ℚ))) :=
  C10_line_recognition ⟨0, false⟩ "$GPGGA,x" 5

/-! ## NTP synchronization (`sync_ntp_time()` in all three sources;
`starlink_to_udp.py` lines 49-122) -/

/-- `NTP_UPDATE_INTERVAL = 60` seconds. -/
def NTP_UPDATE_INTERVAL : ℚ := 60

/-- `USE_NTP = True` in all three sources. -/
def USE_NTP : Bool := true

/-- The module-level NTP state: `ntp_offset`, `ntp_last_sync`,
`ntp_available` (initially `0.0`, `0`, `False`). -/
structure NtpState where
  ntp_offset : ℚ
  ntp_last_sync : ℚ
  ntp_available : Bool
deriving DecidableEq

/-- Outcome of the external calls a non-rate-limited `sync_ntp_time()` would
make: the `nc` reachability probe result, and the offset parsed from the
`sntp`/`ntpdate`/`ntpdig` output (`none` for timeout, tool-not-found with no
fallback, non-zero exit, or an unparseable line). -/
structure NtpEnv where
  probeOk : Bool
  queryResult : Option ℚ

/-- `sync_ntp_time()` as a state transition. Returns the new state, the
function's boolean return value and the number of external process
invocations performed (`0` on the rate-limited early return, `1` when only
the probe ran, `2` when the probe and the offset query both ran). -/
def sync_ntp_time (s : NtpState) (current_time : ℚ) (env : NtpEnv) : NtpState × Bool × ℕ :=
  if USE_NTP = false then (s, false, 0)
  else if current_time - s.ntp_last_sync < NTP_UPDATE_INTERVAL then (s, s.ntp_available, 0)
  else if env.probeOk = false then ({ s with ntp_available := false }, false, 1)
  else match env.queryResult with
    | some off => (⟨off, current_time, true⟩, true, 2)
    | none => ({ s with ntp_available := false }, false, 2)

/-- C6: `sync_ntp_time` is rate-limited against the instant of the last
successful synchronization: any call within `NTP_UPDATE_INTERVAL` of it
performs no external call and leaves the state (in particular
`ntp_offset`) unchanged; hence after a successful sync at `t₁`, a second
call at any `t₂` within the interval performs no external call, so the
pair of calls performs exactly one probe-plus-query transaction and the
second call leaves `ntp_offset` unchanged. -/
theorem C6_sync_rate_limited (s : NtpState) (t₁ t₂ : ℚ) (env₁ env₂ : NtpEnv) (off : ℚ)
    (hdue : NTP_UPDATE_INTERVAL ≤ t₁ - s.ntp_last_sync)
    (hprobe : env₁.probeOk = true) (hquery : env₁.queryResult = some off)
    (hsoon : t₂ - t₁ < NTP_UPDATE_INTERVAL) :
    (sync_ntp_time s t₁ env₁ = (⟨off, t₁, true⟩, true, 2)) ∧
    (sync_ntp_time (sync_ntp_time s t₁ env₁).1 t₂ env₂ =
      ((sync_ntp_time s t₁ env₁).1, true, 0)) ∧
    ((sync_ntp_time (sync_ntp_time s t₁ env₁).1 t₂ env₂).1.ntp_offset = off) ∧
    (∀ (st : NtpState) (t : ℚ) (env : NtpEnv), t - st.ntp_last_sync < NTP_UPDATE_INTERVAL →
      sync_ntp_time st t env = (st, st.ntp_available, 0)) := by
  have hearly : ∀ (st : NtpState) (t : ℚ) (env : NtpEnv),
      t - st.ntp_last_sync < NTP_UPDATE_INTERVAL →
      sync_ntp_time st t env = (st, st.ntp_available, 0) := by
    intro st t env h
    rw [sync_ntp_time]
    simp [USE_NTP, h]
  have h1 : sync_ntp_time s t₁ env₁ = (⟨off, t₁, true⟩, true, 2) := by
    rw [sync_ntp_time]
    simp [USE_NTP, not_lt.mpr hdue, hprobe, hquery]
  refine ⟨h1, ?_, ?_, hearly⟩
  · rw [h1]
    exact hearly _ _ _ (by simpa using hsoon)
  · rw [h1]
    rw [hearly _ _ _ (by simpa using hsoon)]

theorem C6_sync_rate_limited_witness :
    (sync_ntp_time ⟨0, 0, false⟩ 60 ⟨true, some 2⟩ = (⟨2, 60, true⟩, true, 2)) ∧
    (sync_ntp_time (sync_ntp_time ⟨0, 0, false⟩ 60 ⟨true, some 2⟩).1 90 ⟨true, some 7⟩ =
      ((sync_ntp_time ⟨0, 0, false⟩ 60 ⟨true, some 2⟩).1, true, 0)) ∧
    ((sync_ntp_time (sync_ntp_time ⟨0, 0, false⟩ 60 ⟨true, some 2⟩).1 90
      ⟨true, some 7⟩).1.ntp_offset = 2) ∧
    (∀ (st : NtpState) (t : ℚ) (env : NtpEnv), t - st.ntp_last_sync < NTP_UPDATE_INTERVAL →
      sync_ntp_time st t env = (st, st.ntp_available, 0)) :=
  C6_sync_rate_limited ⟨0, 0, false⟩ 60 90 ⟨true, some 2⟩ ⟨true, some 7⟩ 2
    (by rw [NTP_UPDATE_INTERVAL]; norm_num) rfl rfl
    (by rw [NTP_UPDATE_INTERVAL]; norm_num)

/-! ## GPS time conversion and the GPS_INPUT message
(`starlink_mavlink_gps.py`, `send_gps_input()`, lines 139-215) -/

/-- Unix timestamp of the GPS epoch 1980-01-06T00:00:00Z; the value of
`(current_dt - gps_epoch).total_seconds()` is `current_time` minus this. -/
def GPS_EPOCH_UNIX : ℚ := 315964800

/-- Line 159: the fixed leap-second constant added to UTC. -/
def gps_utc_offset : ℚ := 18

/-- Lines 153-160: seconds since the GPS epoch plus the leap-second constant. -/
def time_since_gps_epoch (current_time : ℚ) : ℚ :=
  current_time - GPS_EPOCH_UNIX + gps_utc_offset

/-- Line 163: `gps_week = int(time_since_gps_epoch / 604800)`. -/
def gps_week (current_time : ℚ) : ℤ := pyInt (time_since_gps_epoch current_time / 604800)

/-- Line 164: `time_week = time_since_gps_epoch % 604800`. -/
def time_week (current_time : ℚ) : ℚ := pyMod (time_since_gps_epoch current_time) 604800

/-- Line 165: `time_week_ms = int(time_week * 1000)`. -/
def time_week_ms (current_time : ℚ) : ℤ := pyInt (time_week current_time * 1000)

/-- Line 173: `fix_type = 3 if pnt.get('gps_valid') else 0`. -/
def mavlinkFixType (pnt : Pnt) : ℕ := if truthyB pnt.gps_valid then 3 else 0

/-- The 18 positional fields of `master.mav.gps_input_send(...)`
(lines 193-212), in source order. -/
structure GpsInputMsg where
  timestamp_us : ℤ
  gps_id : ℕ
  ignore_flags : ℕ
  time_week_ms : ℤ
  gps_week : ℤ
  time_accuracy : ℕ
  lat : ℤ
  lon : ℤ
  alt : ℤ
  hdop : ℚ
  vdop : ℚ
  ground_speed : ℚ
  ground_track : ℚ
  satellites_visible : ℤ
  fix_type : ℕ
  horiz_accuracy : ℕ
  vert_accuracy : ℕ
  speed_accuracy : ℕ

/-- `send_gps_input(pnt)`: returns `none` (Python `return False`, nothing
sent) when latitude or longitude is absent (lines 143-144), otherwise the
GPS_INPUT message that is sent. `current_time` is the NTP-corrected
timestamp sampled at line 147. -/
def send_gps_input (pnt : Pnt) (current_time : ℚ) : Option GpsInputMsg :=
  if pnt.lat.isNone || pnt.lon.isNone then none
  else some
    { timestamp_us := pyInt (current_time * 1000000)
      gps_id := 0
      ignore_flags := 8 + 16 + 32 + 64 + 128 + 256 + 512
      time_week_ms := time_week_ms current_time
      gps_week := gps_week current_time
      time_accuracy := 0
      lat := pyInt (pnt.lat.getD 0 * 10000000)
      lon := pyInt (pnt.lon.getD 0 * 10000000)
      alt := pyInt ((if truthyQ pnt.alt then pnt.alt.getD 0 else 0) * 1000)
      hdop := 0
      vdop := 0
      ground_speed := 0
      ground_track := 0
      satellites_visible := if truthyZ pnt.gps_sats then pnt.gps_sats.getD 0 else 10
      fix_type := mavlinkFixType pnt
      horiz_accuracy := 0
      vert_accuracy := 0
      speed_accuracy := 0 }

/-! ## C3: GNSS time conversion -/

theorem pyMod_eq_self {a m : ℚ} (h0 : 0 ≤ a) (hm : a < m) : pyMod a m = a := by
  have hmpos : 0 < m := lt_of_le_of_lt h0 hm
  have hfl : ⌊a / m⌋ = 0 := by
    rw [Int.floor_eq_zero_iff]
    constructor
    · exact div_nonneg h0 hmpos.le
    · rw [div_lt_one hmpos]; exact hm
  rw [pyMod, pyFloor_eq_floor, hfl]
  simp

/-- C3 counterexample: at the instant 0.0006 seconds after
(GPS epoch minus the 18-second leap offset), the code's millisecond-of-week
is `int(0.6) = 0`, while the claim's formula `round((elapsed mod 604800) *
1000)` gives `round(0.6) = 1`: the code truncates, it does not round. -/
theorem C3_counterexample :
    time_week_ms (315964782 + (6 / 10000 : ℚ)) = 0 ∧
    round (time_week (315964782 + (6 / 10000 : ℚ)) * 1000) = 1 := by
  have ht : time_since_gps_epoch (315964782 + (6 / 10000 : ℚ)) = 6 / 10000 := by
    rw [time_since_gps_epoch, GPS_EPOCH_UNIX, gps_utc_offset]
    norm_num
  have htw : time_week (315964782 + (6 / 10000 : ℚ)) = 6 / 10000 := by
    rw [time_week, ht]
    exact pyMod_eq_self (by norm_num) (by norm_num)
  constructor
  · rw [time_week_ms, htw, pyInt_of_nonneg (by norm_num)]
    norm_num
  · rw [htw, round_eq]
    norm_num

/-- C3 (amended): the conversion computes elapsed seconds since the GPS
epoch plus the fixed leap constant 18; week is `int(elapsed / 604800)`,
which equals the claimed floor whenever elapsed is nonnegative; the
millisecond-of-week is the truncation `int((elapsed mod 604800) * 1000)`
(not the claimed rounding, see the counterexample), and it always satisfies
`0 ≤ v < 604800000`. -/
theorem C3_gnss_time_amended (current_time : ℚ) :
    time_since_gps_epoch current_time = current_time - GPS_EPOCH_UNIX + gps_utc_offset ∧
    gps_week current_time = pyInt (time_since_gps_epoch current_time / 604800) ∧
    (0 ≤ time_since_gps_epoch current_time →
      gps_week current_time = ⌊time_since_gps_epoch current_time / 604800⌋) ∧
    time_week_ms current_time = pyInt (time_week current_time * 1000) ∧
    time_week_ms current_time = ⌊time_week current_time * 1000⌋ ∧
    0 ≤ time_week_ms current_time ∧ time_week_ms current_time < 604800000 := by
  have h0 : (0 : ℚ) < 604800 := by norm_num
  have hmod0 : 0 ≤ time_week current_time := pyMod_nonneg h0
  have hmodlt : time_week current_time < 604800 := pyMod_lt h0
  have hms0 : 0 ≤ time_week current_time * 1000 := by positivity
  refine ⟨rfl, rfl, ?_, rfl, ?_, ?_, ?_⟩
  · intro h
    rw [gps_week, pyInt_of_nonneg (div_nonneg h (by norm_num))]
  · rw [time_week_ms, pyInt_of_nonneg hms0]
  · rw [time_week_ms, pyInt_of_nonneg hms0]
    exact Int.floor_nonneg.mpr hms0
  · rw [time_week_ms, pyInt_of_nonneg hms0, Int.floor_lt]
    calc time_week current_time * 1000 < 604800 * 1000 :=
        mul_lt_mul_of_pos_right hmodlt (by norm_num)
    _ = ((604800000 : ℤ) : ℚ) := by norm_num

theorem C3_gnss_time_amended_witness :
    0 ≤ time_since_gps_epoch 315964800 ∧
    gps_week 315964800 = ⌊time_since_gps_epoch 315964800 / 604800⌋ ∧
    0 ≤ time_week_ms 315964800 ∧ time_week_ms 315964800 < 604800000 := by
  have h18 : 0 ≤ time_since_gps_epoch 315964800 := by
    rw [time_since_gps_epoch, GPS_EPOCH_UNIX, gps_utc_offset]
    norm_num
  exact ⟨h18, (C3_gnss_time_amended 315964800).2.2.1 h18,
    (C3_gnss_time_amended 315964800).2.2.2.2.2.1,
    (C3_gnss_time_amended 315964800).2.2.2.2.2.2⟩

/-! ## C4: encodability of the injection message -/

/-- C4: `send_gps_input` emits the injection message exactly when latitude
and longitude are both present; with either absent it reports
not-encodable (`False`) and nothing is sent that cycle. -/
theorem C4_encode_total_iff (pnt : Pnt) (current_time : ℚ) :
    (send_gps_input pnt current_time = none ↔ pnt.lat = none ∨ pnt.lon = none) ∧
    ((send_gps_input pnt current_time).isSome = true ↔
      pnt.lat.isSome = true ∧ pnt.lon.isSome = true) := by
  rw [send_gps_input]
  cases hla : pnt.lat <;> cases hlo : pnt.lon <;> simp

/-! ## C5: treatment of an absent validity flag -/

/-- C5 counterexample: in the fallback-bridge encoder the Pnt with every
field absent (validity flag absent) maps to NMEA fix-quality 1 and status
letter `A`, not quality 0 and status `V` as the claim states for every
variant. -/
theorem C5_counterexample :
    fallbackFixQuality ⟨none, none, none, none, none, none⟩ = 1 ∧
    fallbackStatus ⟨none, none, none, none, none, none⟩ = "A" :=
  ⟨rfl, rfl⟩

/-- C5 (amended): a Fix whose validity flag is absent maps to fix-quality 0,
status `V` and injection fixType 0 in the UDP-bridge and MAVLink variants,
but the fallback-bridge variant defaults the absent flag to true and maps
it to fix-quality 1 and status `A`. -/
theorem C5_absent_validity_amended (pnt : Pnt) (current_time : ℚ)
    (h : pnt.gps_valid = none) :
    udpFixQuality pnt = 0 ∧ udpStatus pnt = "V" ∧ mavlinkFixType pnt = 0 ∧
    (∀ m, send_gps_input pnt current_time = some m → m.fix_type = 0) ∧
    fallbackFixQuality pnt = 1 ∧ fallbackStatus pnt = "A" := by
  refine ⟨?_, ?_, ?_, ?_, ?_, ?_⟩
  · simp [udpFixQuality, udpGpsValid, h]
  · simp [udpStatus, udpGpsValid, h]
  · simp [mavlinkFixType, truthyB, h]
  · intro m hm
    rw [send_gps_input] at hm
    split at hm
    · simp at hm
    · rw [Option.some.injEq] at hm
      rw [← hm]
      simp [mavlinkFixType, truthyB, h]
  · simp [fallbackFixQuality, fallbackGpsValid, h]
  · simp [fallbackStatus, fallbackGpsValid, h]

theorem C5_absent_validity_amended_witness :
    udpFixQuality ⟨some 1, some 2, none, none, none, none⟩ = 0 ∧
    udpStatus ⟨some 1, some 2, none, none, none, none⟩ = "V" ∧
    mavlinkFixType ⟨some 1, some 2, none, none, none, none⟩ = 0 ∧
    (∀ m, send_gps_input ⟨some 1, some 2, none, none, none, none⟩ 0 = some m →
      m.fix_type = 0) ∧
    fallbackFixQuality ⟨some 1, some 2, none, none, none, none⟩ = 1 ∧
    fallbackStatus ⟨some 1, some 2, none, none, none, none⟩ = "A" :=
  C5_absent_validity_amended ⟨some 1, some 2, none, none, none, none⟩ 0 rfl

/-! ## C7: batch composition -/

/-- C7 counterexample: the UDP-bridge encoder's batch at a concrete valid
fix is non-empty yet contains no date/time (ZDA) sentence, so not every
non-empty batch contains one sentence of each of the six kinds. -/
theorem C7_counterexample :
    generate_nmea_sentences ⟨some 1, some 2, some 3, none, some 4, some true⟩
      ⟨0, 0, 0, 0, 1, 1, 2025⟩ ≠ [] ∧
    ∀ s ∈ generate_nmea_sentences ⟨some 1, some 2, some 3, none, some 4, some true⟩
      ⟨0, 0, 0, 0, 1, 1, 2025⟩, s.data.take 6 ≠ ['$', 'G', 'P', 'Z', 'D', 'A'] := by
  have hc : ¬((Pnt.lat ⟨some 1, some 2, some 3, none, some 4, some true⟩).getD 0 = 0 ∧
      (Pnt.lon ⟨some 1, some 2, some 3, none, some 4, some true⟩).getD 0 = 0) := by
    norm_num
  constructor
  · simp only [generate_nmea_sentences, if_neg hc]
    simp
  · intro s hs
    simp only [generate_nmea_sentences, if_neg hc] at hs
    simp only [List.mem_cons, List.not_mem_nil, or_false] at hs
    rcases hs with rfl | rfl | rfl | rfl | rfl
    · exact ne_of_eq_of_ne rfl
        (show ['$', 'G', 'P', 'G', 'G', 'A'] ≠ ['$', 'G', 'P', 'Z', 'D', 'A'] by decide)
    · exact ne_of_eq_of_ne rfl
        (show ['$', 'G', 'P', 'R', 'M', 'C'] ≠ ['$', 'G', 'P', 'Z', 'D', 'A'] by decide)
    · exact ne_of_eq_of_ne rfl
        (show ['$', 'G', 'P', 'V', 'T', 'G'] ≠ ['$', 'G', 'P', 'Z', 'D', 'A'] by decide)
    · exact ne_of_eq_of_ne rfl
        (show ['$', 'G', 'P', 'G', 'L', 'L'] ≠ ['$', 'G', 'P', 'Z', 'D', 'A'] by decide)
    · exact ne_of_eq_of_ne rfl
        (show ['$', 'G', 'P', 'G', 'S', 'A'] ≠ ['$', 'G', 'P', 'Z', 'D', 'A'] by decide)

set_option maxHeartbeats 1000000 in
/-- C7 (amended): every non-empty batch of the fallback-bridge encoder
consists of exactly one sentence of each of the six kinds GGA, RMC, VTG,
GLL, GSA, ZDA in that order; the UDP-bridge encoder's non-empty batches
consist of exactly one sentence of each of only five kinds (GGA, RMC, VTG,
GLL, GSA — no date/time sentence), in that order. -/
theorem C7_batch_composition_amended (pnt : Pnt) (now : UtcTime) (nowAt : ℕ → UtcTime) :
    (generate_nmea_sentences pnt now = [] ∨
      ((generate_nmea_sentences pnt now).length = 5 ∧
        (generate_nmea_sentences pnt now).map (fun s => s.data.take 6) =
          [['$', 'G', 'P', 'G', 'G', 'A'], ['$', 'G', 'P', 'R', 'M', 'C'],
            ['$', 'G', 'P', 'V', 'T', 'G'], ['$', 'G', 'P', 'G', 'L', 'L'],
            ['$', 'G', 'P', 'G', 'S', 'A']])) ∧
    ((get_starlink_sentences pnt nowAt).length = 6 ∧
      (get_starlink_sentences pnt nowAt).map (fun s => s.data.take 6) =
        [['$', 'G', 'P', 'G', 'G', 'A'], ['$', 'G', 'P', 'R', 'M', 'C'],
          ['$', 'G', 'P', 'V', 'T', 'G'], ['$', 'G', 'P', 'G', 'L', 'L'],
          ['$', 'G', 'P', 'G', 'S', 'A'], ['$', 'G', 'P', 'Z', 'D', 'A']]) := by
  constructor
  · by_cases hc : pnt.lat.getD 0 = 0 ∧ pnt.lon.getD 0 = 0
    · left
      simp only [generate_nmea_sentences, if_pos hc]
    · right
      simp only [generate_nmea_sentences, if_neg hc]
      exact ⟨rfl, rfl⟩
  · exact ⟨rfl, rfl⟩

/-! ## C9: the zero-coordinate drop of the UDP-bridge encoder -/

/-- C9: after substituting `0.0` for an absent coordinate, the UDP-bridge
encoder returns the empty batch exactly when both substituted coordinates
are `0.0`; hence a genuine fix at latitude 0, longitude 0 is dropped, while
a fix missing only one coordinate is emitted as a full five-sentence batch
with `0.0` substituted. -/
theorem C9_zero_coordinate_drop (pnt : Pnt) (now : UtcTime) :
    (generate_nmea_sentences pnt now = [] ↔
      pnt.lat.getD 0 = 0 ∧ pnt.lon.getD 0 = 0) ∧
    (pnt.lat = some 0 → pnt.lon = some 0 → generate_nmea_sentences pnt now = []) ∧
    (pnt.lat = none → pnt.lon.getD 0 ≠ 0 →
      (generate_nmea_sentences pnt now).length = 5) := by
  have hbase : generate_nmea_sentences pnt now = [] ↔
      (pnt.lat.getD 0 = 0 ∧ pnt.lon.getD 0 = 0) := by
    by_cases hc : pnt.lat.getD 0 = 0 ∧ pnt.lon.getD 0 = 0
    · simp only [generate_nmea_sentences, if_pos hc]
      exact iff_of_true trivial hc
    · simp only [generate_nmea_sentences, if_neg hc]
      exact iff_of_false (by simp) hc
  refine ⟨hbase, ?_, ?_⟩
  · intro h1 h2
    exact hbase.mpr ⟨by rw [h1]; rfl, by rw [h2]; rfl⟩
  · intro h1 h2
    have hc : ¬(pnt.lat.getD 0 = 0 ∧ pnt.lon.getD 0 = 0) := fun hcc => h2 hcc.2
    simp only [generate_nmea_sentences, if_neg hc]
    rfl

theorem C9_zero_coordinate_drop_witness :
    (generate_nmea_sentences ⟨some 0, some 0, none, none, none, none⟩
      ⟨0, 0, 0, 0, 1, 1, 2000⟩ = []) ∧
    ((generate_nmea_sentences ⟨none, some 5, none, none, none, none⟩
      ⟨0, 0, 0, 0, 1, 1, 2000⟩).length = 5) :=
  ⟨(C9_zero_coordinate_drop ⟨some 0, some 0, none, none, none, none⟩
      ⟨0, 0, 0, 0, 1, 1, 2000⟩).2.1 rfl rfl,
    (C9_zero_coordinate_drop ⟨none, some 5, none, none, none, none⟩
      ⟨0, 0, 0, 0, 1, 1, 2000⟩).2.2 rfl (by norm_num)⟩

theorem C2_checksum_correct_witness :
    checksumOKb ((get_starlink_sentences ⟨none, none, none, none, none, none⟩
      (fun _ => ⟨0, 0, 0, 0, 1, 1, 2000⟩)).getD 0 "") = true :=
  C2_checksum_correct ⟨none, none, none, none, none, none⟩ ⟨0, 0, 0, 0, 1, 1, 2000⟩
    (fun _ => ⟨0, 0, 0, 0, 1, 1, 2000⟩) _
    (Or.inr (by
      simp only [get_starlink_sentences, List.getD_cons_zero]
      exact List.mem_cons_self _ _))
